import Mathlib

/-!
Shallow embedding of `modbus_bridge.py` (class `ModbusBridge`,
brainelectronics/micropython-modules) and proofs about the claims on the
bridge synchronization engine: connection-settings extraction, read-all /
write-all register passes, the provisioner sync cycle, the worker run-flag
setters, and the cached client-data property.
-/

set_option autoImplicit false
set_option maxHeartbeats 1000000

namespace ModbusBridge

/-- Python/JSON values as they occur in the register file and register data. -/
inductive JValue where
  | str (s : String)
  | int (n : Int)
  | bool (b : Bool)
  | arr (l : List JValue)
  | obj (o : List (String × JValue))
  | null

/-- A Python dict with string keys, in insertion order. -/
abbrev JObj := List (String × JValue)

/-- First-match association-list lookup, modelling Python dict indexing
(dict keys are unique, so first match is the only match). -/
def alookup {κ α : Type} [DecidableEq κ] : List (κ × α) → κ → Option α
  | [], _ => none
  | (k', v) :: rest, k => if k' = k then some v else alookup rest k

/-- Python truthiness of a `JValue` (empty containers, `0`, `""`, `False`
and `None` are falsy). -/
def truthy : JValue → Bool
  | .str s => s ≠ ""
  | .int n => n ≠ 0
  | .bool b => b
  | .arr l => ¬l.isEmpty
  | .obj o => ¬o.isEmpty
  | .null => false

/-- Python `isinstance(x, int)`: `bool` is a subclass of `int`. -/
def isInstInt : JValue → Bool
  | .int _ => true
  | .bool _ => true
  | _ => false

/-- Numeric value of a Python int (with `True = 1`, `False = 0`). -/
def pyToInt : JValue → Int
  | .int n => n
  | .bool b => if b then 1 else 0
  | _ => 0

/-- Python `str.lower()`, structurally (kernel-computable version of
`String.toLower`). -/
def pyLower (s : String) : String := ⟨s.data.map Char.toLower⟩

/-- Errors raised by the bridge code.  `bridgeError` is `ModbusBridgeError`
(the spec's `ConfigError` / `ConnectionError`); the others model built-in
Python exceptions escaping from the same code paths. -/
inductive PyError where
  | bridgeError (msg : String)
  | attrError
  | keyError
  | nameError
deriving DecidableEq

/-- Connection-related state of the bridge object that
`_load_connection_settings` mutates.  `none` models the initial empty dict
of `_connection_settings_client` / `_connection_settings_host`. -/
structure ConnSettings where
  client : Option JObj
  host : Option JObj
  clientUnit : Int
  hostUnit : Int

/-- Initial connection state set up in `ModbusBridge.__init__`. -/
def initSettings : ConnSettings := ⟨none, none, 0, 0⟩

/-- Required keys of a connection block (`modbus_bridge.py` line 413). -/
def requiredKeys : List String := ["type", "unit", "address", "mode"]

/-- Python `key in dict`. -/
def hasKey (o : JObj) (k : String) : Bool := (alookup o k).isSome

/-- The connection-type check of `_load_connection_settings`
(`modbus_bridge.py` lines 422-431): `rtu` requires a `baudrate` key, `tcp`
passes, anything else is an unknown connection type. -/
def connectionTypeCheck (cc : JObj) (ctype : String) : Except PyError Unit :=
  if ctype = "rtu" then
    if hasKey cc "baudrate" then .ok ()
    else .error (.bridgeError "Missing baudrate key in connection config")
  else if ctype = "tcp" then .ok ()
  else .error (.bridgeError "Unknown connection type")

/-- Embedding of `ModbusBridge._load_connection_settings`
(`modbus_bridge.py` lines 404-460), including the effect of the
`connection_settings_client` / `connection_settings_host` and
`client_unit` / `host_unit` property setters it invokes.  The missing-keys
path and the missing-`CONNECTION` path only log a warning and leave the
initial state untouched. -/
def loadConnectionSettings (regs : JObj) : Except PyError ConnSettings :=
  if truthy (.obj regs) then
    -- `all_regs.get(config_keyword, '')` must be truthy
    match alookup regs "CONNECTION" with
    | some cv =>
      if truthy cv then
        match cv with
        | .obj cc =>
          if requiredKeys.all (fun k => hasKey cc (pyLower k)) then
            match alookup cc "type" with
            | some (.str t) =>
              match connectionTypeCheck cc (pyLower t) with
              | .error e => .error e
              | .ok _ =>
                match alookup cc "unit" with
                | some u =>
                  if isInstInt u then
                    match alookup cc "mode" with
                    | some (.str m) =>
                      if pyLower m = "slave" then
                        -- connection block is non-empty, so the settings
                        -- setter's `if val:` guard passes
                        .ok { initSettings with
                              client := some cc, clientUnit := pyToInt u }
                      else if pyLower m = "master" then
                        .ok { initSettings with
                              host := some cc, hostUnit := pyToInt u }
                      else .error (.bridgeError "Unknown connection mode")
                    -- `.lower()` on a non-string mode raises AttributeError
                    | some _ => .error .attrError
                    -- unreachable: "mode" is among the checked required keys
                    | none => .error .keyError
                  else .error (.bridgeError "Unknown connection unit")
                -- unreachable: "unit" is among the checked required keys
                | none => .error .keyError
            -- `.lower()` on a non-string type raises AttributeError
            | some _ => .error .attrError
            -- unreachable: "type" is among the checked required keys
            | none => .error .keyError
          else
            -- warning about missing keys, block skipped, nothing raised
            .ok initSettings
        -- `k.lower() in connection_config` / `.keys()` on a non-dict value
        -- ends in an AttributeError
        | _ => .error .attrError
      else
        -- falsy CONNECTION value: `get` fallback path, warning only
        .ok initSettings
    | none =>
      -- key CONNECTION not found: warning only
      .ok initSettings
  else
    -- no register definitions loaded: warning only
    .ok initSettings

/-- State of the two WLAN interfaces queried by `_get_network_ip`
(`network.WLAN(network.STA_IF)` and `network.WLAN(network.AP_IF)`). -/
structure NetState where
  stationActive : Bool
  stationConnected : Bool
  stationIp : String
  apActive : Bool
  apIp : String

/-- Embedding of `ModbusBridge._get_network_ip` (`modbus_bridge.py` lines
462-490).  Returns the resolved local IP together with the `result` flag;
a `false` flag means the function logged the warning about no valid local
IP and fell back to the default `0.0.0.0`. -/
def getNetworkIpResult (net : NetState) : String × Bool :=
  let localIp := "0.0.0.0"
  let result := false
  let (localIp, result) :=
    if net.stationActive then
      if net.stationConnected then (net.stationIp, true)
      else (localIp, result)
    else (localIp, result)
  let (localIp, result) :=
    if net.apActive && !result then (net.apIp, true) else (localIp, result)
  (localIp, result)

/-- The IP address `_get_network_ip` returns. -/
def getNetworkIp (net : NetState) : String := (getNetworkIpResult net).1

/-- Observable transport calls made by the TCP-responder branch of
`setup_connection`. -/
inductive SetupEvent where
  | getBoundStatus
  | bindCall (ip : String) (port : Int)
  | setupRegisters
deriving DecidableEq, Repr

/-- Python `int(x)` coercion, `none` when it raises. -/
def pyIntCoerce : JValue → Option Int
  | .int n => some n
  | .bool b => some (if b then 1 else 0)
  | .str s => s.toInt?
  | _ => none

/-- Embedding of the TCP-responder branch of `ModbusBridge.setup_connection`
(`modbus_bridge.py` lines 552-584, the `_host_cfg` `type == 'tcp'` case):
create `ModbusTCP`, resolve the local IP via `_get_network_ip`, query
`get_bound_status` (its outcome is the `boundStatus` argument, `.error`
when the call raises), bind when not yet bound, then set up the registers.
Returns the ordered list of transport calls made. -/
def setupTcpResponder (hostCfg : JObj) (net : NetState)
    (boundStatus : Except Unit Bool) : Except PyError (List SetupEvent) :=
  let localIp := getNetworkIp net
  match boundStatus with
  | .error _ => .error (.bridgeError "No get_bound_status function")
  | .ok true =>
      -- `port` is only assigned inside the not-bound branch, so the final
      -- log statement raises NameError here
      .error .nameError
  | .ok false =>
      match alookup hostCfg "unit" with
      | none => .error .keyError
      | some u =>
        match pyIntCoerce u with
        | none => .error .attrError
        | some port =>
          .ok [SetupEvent.getBoundStatus, SetupEvent.bindCall localIp port,
               SetupEvent.setupRegisters]

/-- One register definition `{"register": addr, "len": count}` from the
register file. -/
structure RegDef where
  register : Nat
  len : Nat
deriving DecidableEq, Repr

/-- One entry of a read snapshot: `{'register': addr, 'val': value}`. -/
structure RegEntry where
  register : Nat
  val : JValue

/-- Register definitions of one class, keyed by human-readable name. -/
abbrev DefList := List (String × RegDef)

/-- Read content of one class, keyed by human-readable name. -/
abbrev ContentList := List (String × RegEntry)

/-- Value stored for a read result: the single element when the transport
returned exactly one value, otherwise the whole list (`modbus_bridge.py`
lines 876-887 and the analogous branches of the other read loops). -/
def mkRegVal : List JValue → JValue
  | [v] => v
  | vs => .arr vs

/-- Common shape of the four per-class read loops (`read_coil_registers`,
`read_hregs_registers`, `read_ists_registers`, `read_iregs_registers`,
`modbus_bridge.py` lines 850-895, 948-995, 1044-1090, 1092-1139); they
differ only in the transport function called.  The transport is an oracle:
`none` models the call raising, in which case the register key is skipped
(the `except` branch logs a warning and continues the loop). -/
def readClassRegisters (defs : DefList)
    (transport : Nat → Nat → Option (List JValue)) : ContentList :=
  defs.filterMap (fun p =>
    (transport p.2.register p.2.len).map
      (fun vs => (p.1, RegEntry.mk p.2.register (mkRegVal vs))))

/-- Read transport of the requester handle (`self.host`): one oracle per
Modbus read primitive, taking starting address and quantity; `none` means
the call raised.  `slave_addr` and the fixed `signed=False` flag are
constant in each loop and folded into the oracle. -/
structure ReadTransport where
  read_coils : Nat → Nat → Option (List JValue)
  read_discrete_inputs : Nat → Nat → Option (List JValue)
  read_holding_registers : Nat → Nat → Option (List JValue)
  read_input_registers : Nat → Nat → Option (List JValue)

/-- The per-class register definitions of `self.register_definitions` as
consumed by `read_all_registers`: `none` models the class key being absent
from the register file. -/
structure RegisterDefs where
  coils : Option DefList
  hregs : Option DefList
  ists : Option DefList
  iregs : Option DefList

/-- Embedding of `ModbusBridge.read_coil_registers` (lines 850-895). -/
def read_coil_registers (defs : DefList) (t : ReadTransport) : ContentList :=
  readClassRegisters defs t.read_coils

/-- Embedding of `ModbusBridge.read_hregs_registers` (lines 948-995). -/
def read_hregs_registers (defs : DefList) (t : ReadTransport) : ContentList :=
  readClassRegisters defs t.read_holding_registers

/-- Embedding of `ModbusBridge.read_ists_registers` (lines 1044-1090). -/
def read_ists_registers (defs : DefList) (t : ReadTransport) : ContentList :=
  readClassRegisters defs t.read_discrete_inputs

/-- Embedding of `ModbusBridge.read_iregs_registers` (lines 1092-1139). -/
def read_iregs_registers (defs : DefList) (t : ReadTransport) : ContentList :=
  readClassRegisters defs t.read_input_registers

/-- Embedding of `ModbusBridge.read_all_registers` (`modbus_bridge.py`
lines 734-787): each of the four classes is read and included exactly when
it is present in the register definitions, in the fixed order COILS,
HREGS, ISTS, IREGS; an absent class is skipped without error. -/
def read_all_registers (rd : RegisterDefs) (t : ReadTransport) :
    List (String × ContentList) :=
  (match rd.coils with
   | some defs => [("COILS", read_coil_registers defs t)]
   | none => []) ++
  (match rd.hregs with
   | some defs => [("HREGS", read_hregs_registers defs t)]
   | none => []) ++
  (match rd.ists with
   | some defs => [("ISTS", read_ists_registers defs t)]
   | none => []) ++
  (match rd.iregs with
   | some defs => [("IREGS", read_iregs_registers defs t)]
   | none => [])

/-- One pending-write entry `{'val': value, 'time': timestamp}` as held in
the changed-registers ledger (extra keys are never read by the bridge). -/
structure LedgerEntry where
  val : JValue
  time : Nat

/-- Pending-write entries of one class, keyed by register address. -/
abbrev EntryList := List (Nat × LedgerEntry)

/-- A write batch / ledger snapshot: class name to entries by address. -/
abbrev RegBatch := List (String × EntryList)

/-- Coil wire-value conversion of `write_coil_registers` (lines 921-925):
`0xFF00` exactly when the value `is True` in the Python sense (the very
boolean `True`), `0x0000` for every other value. -/
def coilTransform : JValue → JValue
  | .bool true => .int 0xFF00
  | _ => .int 0x0000

/-- Write transport of the requester handle: one oracle per Modbus write
primitive, taking the output address and the (wire) value.  `false`
models both a raised exception (caught, leaving `operation_status` at
`False`) and a falsy return of the transport call. -/
structure WriteTransport where
  write_single_coil : Nat → JValue → Bool
  write_single_register : Nat → JValue → Bool

/-- Common shape of the two per-class write loops (`write_coil_registers`
lines 897-946 and `write_hregs_registers` lines 997-1042): every entry is
attempted, its key lands in the failed dict when `operation_status` ended
falsy and in the successful dict otherwise.  The third component records
the transport call issued for each entry (address, transformed value). -/
def writeClassRegisters (tf : JValue → JValue) (orc : Nat → JValue → Bool)
    (entries : EntryList) : EntryList × EntryList × List (Nat × JValue) :=
  (entries.filter (fun p => !orc p.1 (tf p.2.val)),
   entries.filter (fun p => orc p.1 (tf p.2.val)),
   entries.map (fun p => (p.1, tf p.2.val)))

/-- Embedding of `ModbusBridge.write_coil_registers` (lines 897-946):
values are converted with the `is True` coil transform before the call. -/
def write_coil_registers (entries : EntryList) (t : WriteTransport) :
    EntryList × EntryList × List (Nat × JValue) :=
  writeClassRegisters coilTransform t.write_single_coil entries

/-- Embedding of `ModbusBridge.write_hregs_registers` (lines 997-1042):
values are passed to the transport unchanged (`signed=False` fixed). -/
def write_hregs_registers (entries : EntryList) (t : WriteTransport) :
    EntryList × EntryList × List (Nat × JValue) :=
  writeClassRegisters (fun v => v) t.write_single_register entries

/-- Embedding of `ModbusBridge.write_all_registers` (`modbus_bridge.py`
lines 789-848): COILS and HREGS entries are dispatched to their write
loops and a class key appears in the returned failed/successful dicts only
when its sub-dict is non-empty; ISTS and IREGS blocks are skipped with a
log line and no transport call.  The third component is the ordered list
of transport calls issued (class, address, wire value). -/
def write_all_registers (batch : RegBatch) (t : WriteTransport) :
    RegBatch × RegBatch × List (String × Nat × JValue) :=
  let coilsRes :=
    match alookup batch "COILS" with
    | some entries => write_coil_registers entries t
    | none => ([], [], [])
  let hregsRes :=
    match alookup batch "HREGS" with
    | some entries => write_hregs_registers entries t
    | none => ([], [], [])
  let failed := (if coilsRes.1.isEmpty then [] else [("COILS", coilsRes.1)]) ++
                (if hregsRes.1.isEmpty then [] else [("HREGS", hregsRes.1)])
  let successful :=
    (if coilsRes.2.1.isEmpty then [] else [("COILS", coilsRes.2.1)]) ++
    (if hregsRes.2.1.isEmpty then [] else [("HREGS", hregsRes.2.1)])
  let trace := coilsRes.2.2.map (fun p => ("COILS", p.1, p.2)) ++
               hregsRes.2.2.map (fun p => ("HREGS", p.1, p.2))
  (failed, successful, trace)

/-- The removal calls issued by `ModbusBridge._update_client_data`
(`modbus_bridge.py` lines 694-732): when the captured changed-registers
dict has a truthy key, all pending entries are written and for every entry
confirmed successful a `_remove_changed_register(reg_type, address,
timestamp)` call is made with that entry's captured `data['time']`. -/
def update_client_data_removals (captured : RegBatch) (t : WriteTransport) :
    List (String × Nat × Nat) :=
  if captured.any (fun p => p.1 ≠ "") then
    ((write_all_registers captured t).2.1.map
      (fun p => p.2.map (fun q => (p.1, q.1, q.2.time)))).flatten
  else []

/-- Entry stored in a ledger for a class and address. -/
def lookupLedger (ledger : RegBatch) (cls : String) (addr : Nat) :
    Option LedgerEntry :=
  (alookup ledger cls).bind (fun es => alookup es addr)

/-- Modelled from the spec: `Responder.removeChanged(class, addr,
timestamp)` alias `_remove_changed_register` of the external
micropython-modbus library, which is not part of this repository.  Per
spec sections 3, 4.2 and 5 it is a compare-and-delete: the entry at the
class and address is removed only when its timestamp equals the given
captured timestamp, so an entry superseded by a newer timestamp is left
in place. -/
def removeChangedRegister (ledger : RegBatch) (cls : String) (addr : Nat)
    (ts : Nat) : RegBatch :=
  ledger.map (fun p =>
    if p.1 = cls then
      (p.1, p.2.filter (fun q => !(q.1 == addr && q.2.time == ts)))
    else p)

/-- Observable actions of one provisioner sync cycle: push-phase transport
writes and ledger removals, and pull-phase responder register updates. -/
inductive SyncEvent where
  | writeReg (cls : String) (addr : Nat) (v : JValue)
  | removeReg (cls : String) (addr : Nat) (ts : Nat)
  | setReg (cls : String) (addr : Nat) (v : JValue)

/-- Pull-phase events (`Responder.setRegister` family). -/
def isPullEvent : SyncEvent → Bool
  | .setReg _ _ _ => true
  | _ => false

/-- Trace of `ModbusBridge._update_client_data` (lines 694-732), the push
phase: transport writes of all captured entries followed by the removal
calls for the successful ones; nothing when the captured dict is empty. -/
def update_client_data_trace (captured : RegBatch) (t : WriteTransport) :
    List SyncEvent :=
  if captured.any (fun p => p.1 ≠ "") then
    (write_all_registers captured t).2.2.map
      (fun e => SyncEvent.writeReg e.1 e.2.1 e.2.2) ++
    (update_client_data_removals captured t).map
      (fun r => SyncEvent.removeReg r.1 r.2.1 r.2.2)
  else []

/-- Trace of `ModbusBridge._update_host_data` (`modbus_bridge.py` lines
658-692), the pull phase: for every class in the fixed order COILS,
HREGS, ISTS, IREGS present in the latest client data, one responder
`set_coil`/`set_hreg`/`set_ist`/`set_ireg` call per register (every
`RegEntry` carries a `val`, so the `'val' in val` guard passes). -/
def update_host_data_trace (clientData : List (String × ContentList)) :
    List SyncEvent :=
  (["COILS", "HREGS", "ISTS", "IREGS"].map (fun cls =>
    match alookup clientData cls with
    | some regs => regs.map (fun p => SyncEvent.setReg cls p.2.register p.2.val)
    | none => [])).flatten

/-- Trace of the sync step of `ModbusBridge._provision_host_data`
(`modbus_bridge.py` lines 639-652): when the interval is due the push
phase `_update_client_data` runs first and the pull phase
`_update_host_data` runs second, unconditionally. -/
def provision_sync_trace (captured : RegBatch)
    (clientData : List (String × ContentList)) (t : WriteTransport) :
    List SyncEvent :=
  update_client_data_trace captured t ++ update_host_data_trace clientData

/-- Run-flag state of one periodic worker: `locked` is the `_thread` lock
used as a boolean run-flag, `spawned` counts `_thread.start_new_thread`
calls. -/
structure WorkerCtl where
  locked : Bool
  spawned : Nat
deriving DecidableEq, Repr

/-- Common shape of the two run-flag property setters: start only when not
already running (acquire the lock, spawn one worker), stop only when
running (release the lock), otherwise do nothing. -/
def setWorkerFlag (s : WorkerCtl) (value : Bool) : WorkerCtl :=
  if value && !s.locked then { locked := true, spawned := s.spawned + 1 }
  else if !value && s.locked then { s with locked := false }
  else s

/-- Embedding of the `collecting_client_data` setter (`modbus_bridge.py`
lines 312-335). -/
def set_collecting_client_data (s : WorkerCtl) (value : Bool) : WorkerCtl :=
  setWorkerFlag s value

/-- Embedding of the `provisioning_host_data` setter (`modbus_bridge.py`
lines 362-384). -/
def set_provisioning_host_data (s : WorkerCtl) (value : Bool) : WorkerCtl :=
  setWorkerFlag s value

/-- Embedding of the `client_data` property (`modbus_bridge.py` lines
337-350): read the latest snapshot message; replace the cached
`_client_data` field only when that snapshot is non-empty; return the
(possibly stale) cached field.  The first component is the new field
value, the second the returned value. -/
def client_data (cache : JObj) (msgValue : JObj) : JObj × JObj :=
  if truthy (.obj msgValue) then (msgValue, msgValue) else (cache, cache)

/-- The connection block `_load_connection_settings` adopts: the truthy
`CONNECTION` dict when it carries all required keys (`none` when the block
is skipped or absent). -/
def adoptedBlock (regs : JObj) : Option JObj :=
  if truthy (.obj regs) then
    match alookup regs "CONNECTION" with
    | some (.obj cc) =>
        if truthy (.obj cc) && requiredKeys.all (fun k => hasKey cc (pyLower k)) then
          some cc
        else none
    | _ => none
  else none

/-- Lower-cased `mode` value of a connection block, when it is a string. -/
def modeLower (cc : JObj) : Option String :=
  match alookup cc "mode" with
  | some (.str m) => some (pyLower m)
  | _ => none

/-- Outcome is a raised `ModbusBridgeError` (the spec's `ConfigError`). -/
def isConfigError : Except PyError ConnSettings → Bool
  | .error (.bridgeError _) => true
  | _ => false

/-- Wire value sent for an entry of a class: coils go through the
`is True` transform, holding registers are sent unchanged. -/
def classWire (cls : String) (v : JValue) : JValue :=
  if cls = "COILS" then coilTransform v else v

/-- The write primitive used for a class. -/
def classWriteOrc (t : WriteTransport) (cls : String) : Nat → JValue → Bool :=
  if cls = "COILS" then t.write_single_coil else t.write_single_register

/-! Association-list lemmas shared by the claim proofs. -/

theorem alookup_eq_none_of_not_mem_keys {κ α : Type} [DecidableEq κ]
    (l : List (κ × α)) (k : κ) (h : k ∉ l.map Prod.fst) : alookup l k = none := by
  induction l with
  | nil => rfl
  | cons hd tl ih =>
    obtain ⟨k', v⟩ := hd
    simp only [List.map_cons, List.mem_cons, not_or] at h
    have hne : ¬(k' = k) := fun he => h.1 he.symm
    simp only [alookup, if_neg hne]
    exact ih h.2

theorem mem_of_alookup_eq_some {κ α : Type} [DecidableEq κ]
    (l : List (κ × α)) (k : κ) (a : α) (h : alookup l k = some a) :
    (k, a) ∈ l := by
  induction l with
  | nil => simp [alookup] at h
  | cons hd tl ih =>
    obtain ⟨k', v⟩ := hd
    simp only [alookup] at h
    by_cases hk : k' = k
    · rw [if_pos hk] at h
      cases h
      subst hk
      exact List.mem_cons_self _ _
    · rw [if_neg hk] at h
      exact List.mem_cons_of_mem _ (ih h)

theorem alookup_filter_of_pos {κ α : Type} [DecidableEq κ]
    (l : List (κ × α)) (p : κ × α → Bool) (k : κ) (a : α)
    (h : alookup l k = some a) (hp : p (k, a) = true) :
    alookup (l.filter p) k = some a := by
  induction l with
  | nil => simp [alookup] at h
  | cons hd tl ih =>
    obtain ⟨k', v⟩ := hd
    simp only [alookup] at h
    by_cases hk : k' = k
    · rw [if_pos hk] at h
      cases h
      subst hk
      rw [List.filter_cons, if_pos hp]
      simp [alookup]
    · rw [if_neg hk] at h
      rw [List.filter_cons]
      by_cases hpv : p (k', v) = true
      · rw [if_pos hpv]
        simp only [alookup, if_neg hk]
        exact ih h
      · rw [if_neg hpv]
        exact ih h

theorem alookup_filter_eq_of_nodup {κ α : Type} [DecidableEq κ]
    (l : List (κ × α)) (p : κ × α → Bool) (k : κ) (a : α)
    (hn : (l.map Prod.fst).Nodup) (hm : (k, a) ∈ l) :
    alookup (l.filter p) k = if p (k, a) then some a else none := by
  induction l with
  | nil => cases hm
  | cons hd tl ih =>
    obtain ⟨k', v⟩ := hd
    simp only [List.map_cons, List.nodup_cons] at hn
    rcases List.mem_cons.1 hm with heq | hmem
    · cases heq
      rw [List.filter_cons]
      by_cases hp : p (k, a) = true
      · rw [if_pos hp, if_pos hp]
        simp [alookup]
      · rw [if_neg hp, if_neg hp]
        apply alookup_eq_none_of_not_mem_keys
        intro hk
        obtain ⟨q, hq, rfl⟩ := List.mem_map.1 hk
        exact hn.1 (List.mem_map_of_mem Prod.fst (List.mem_of_mem_filter hq))
    · have hk : k' ≠ k := fun he => hn.1 (he ▸ List.mem_map_of_mem Prod.fst hmem)
      rw [List.filter_cons]
      by_cases hpv : p (k', v) = true
      · rw [if_pos hpv]
        simp only [alookup, if_neg hk]
        exact ih hn.2 hmem
      · rw [if_neg hpv]
        exact ih hn.2 hmem

theorem alookup_eq_some_of_mem_nodup {κ α : Type} [DecidableEq κ]
    (l : List (κ × α)) (k : κ) (a : α)
    (hn : (l.map Prod.fst).Nodup) (hm : (k, a) ∈ l) :
    alookup l k = some a := by
  have h := alookup_filter_eq_of_nodup l (fun _ => true) k a hn hm
  simpa using h

theorem keys_filterMap_subset {κ α β : Type} [DecidableEq κ]
    (F : κ × α → Option (κ × β)) (hF : ∀ p q, F p = some q → q.1 = p.1)
    (l : List (κ × α)) (k : κ) (h : k ∈ (l.filterMap F).map Prod.fst) :
    k ∈ l.map Prod.fst := by
  obtain ⟨q, hq, rfl⟩ := List.mem_map.1 h
  obtain ⟨p, hp, hFp⟩ := List.mem_filterMap.1 hq
  rw [hF p q hFp]
  exact List.mem_map_of_mem Prod.fst hp

theorem alookup_filterMap_eq {κ α β : Type} [DecidableEq κ]
    (F : κ × α → Option (κ × β)) (hF : ∀ p q, F p = some q → q.1 = p.1)
    (l : List (κ × α)) (k : κ) (a : α)
    (hn : (l.map Prod.fst).Nodup) (hm : (k, a) ∈ l) :
    alookup (l.filterMap F) k = (F (k, a)).map Prod.snd := by
  induction l with
  | nil => cases hm
  | cons hd tl ih =>
    obtain ⟨k', v⟩ := hd
    simp only [List.map_cons, List.nodup_cons] at hn
    rw [List.filterMap_cons]
    rcases List.mem_cons.1 hm with heq | hmem
    · cases heq
      cases hFv : F (k, a) with
      | none =>
        simp only [Option.map_none']
        apply alookup_eq_none_of_not_mem_keys
        intro hk
        exact hn.1 (keys_filterMap_subset F hF tl k hk)
      | some q =>
        obtain ⟨kq, bq⟩ := q
        have : kq = k := hF _ _ hFv
        subst this
        simp [alookup]
    · have hk : k' ≠ k := fun he => hn.1 (he ▸ List.mem_map_of_mem Prod.fst hmem)
      cases hFv : F (k', v) with
      | none => exact ih hn.2 hmem
      | some q =>
        obtain ⟨kq, bq⟩ := q
        have hkq : kq = k' := hF _ _ hFv
        subst hkq
        simp only [alookup, if_neg hk]
        exact ih hn.2 hmem

/-! Claim theorems. -/

/-- C8: starting a worker is idempotent and stopping a stopped worker is a
no-op: setting the collector (or provisioner) run-flag to true twice
equals setting it once, from a stopped state two consecutive starts spawn
exactly one worker and leave the flag set, and setting the flag to false
while already stopped changes nothing. -/
theorem c8_worker_start_stop_idempotent (s : WorkerCtl) :
    (set_collecting_client_data (set_collecting_client_data s true) true
       = set_collecting_client_data s true) ∧
    (s.locked = false →
       (set_collecting_client_data (set_collecting_client_data s true) true).spawned
          = s.spawned + 1 ∧
       (set_collecting_client_data (set_collecting_client_data s true) true).locked
          = true) ∧
    (s.locked = false → set_collecting_client_data s false = s) ∧
    (set_provisioning_host_data (set_provisioning_host_data s true) true
       = set_provisioning_host_data s true) ∧
    (s.locked = false →
       (set_provisioning_host_data (set_provisioning_host_data s true) true).spawned
          = s.spawned + 1 ∧
       (set_provisioning_host_data (set_provisioning_host_data s true) true).locked
          = true) ∧
    (s.locked = false → set_provisioning_host_data s false = s) := by
  obtain ⟨l, n⟩ := s
  cases l <;>
    simp [set_collecting_client_data, set_provisioning_host_data, setWorkerFlag]

/-- C8 witness: the idempotence and no-op facts at the idle state with no
worker spawned. -/
theorem c8_worker_start_stop_idempotent_witness :
    (set_collecting_client_data (set_collecting_client_data ⟨false, 0⟩ true) true
       = set_collecting_client_data ⟨false, 0⟩ true) ∧
    (set_collecting_client_data (set_collecting_client_data ⟨false, 0⟩ true) true).spawned
       = 0 + 1 ∧
    (set_collecting_client_data ⟨false, 0⟩ false = ⟨false, 0⟩) ∧
    (set_provisioning_host_data (set_provisioning_host_data ⟨false, 0⟩ true) true
       = set_provisioning_host_data ⟨false, 0⟩ true) ∧
    (set_provisioning_host_data (set_provisioning_host_data ⟨false, 0⟩ true) true).spawned
       = 0 + 1 ∧
    (set_provisioning_host_data ⟨false, 0⟩ false = ⟨false, 0⟩) := by
  have h := c8_worker_start_stop_idempotent ⟨false, 0⟩
  exact ⟨h.1, (h.2.1 rfl).1, h.2.2.1 rfl, h.2.2.2.1, ((h.2.2.2.2.1) rfl).1,
         h.2.2.2.2.2 rfl⟩

/-- C9: the wire value sent by the coil write operation is `0xFF00` exactly
when the entry value is the Python boolean `True`, and `0x0000` for every
other value, including the integer `1`, non-zero numbers and non-empty
lists; the transport calls of `write_coil_registers` use exactly this
conversion of each entry's `val`. -/
theorem c9_coil_wire_value :
    (∀ v : JValue, coilTransform v = .int 0xFF00 ↔ v = .bool true) ∧
    (∀ (entries : EntryList) (t : WriteTransport),
       (write_coil_registers entries t).2.2
         = entries.map (fun p => (p.1, coilTransform p.2.val))) ∧
    coilTransform (.int 1) = .int 0x0000 ∧
    coilTransform (.int 7) = .int 0x0000 ∧
    coilTransform (.arr [.int 1]) = .int 0x0000 ∧
    coilTransform (.str "on") = .int 0x0000 ∧
    coilTransform (.bool false) = .int 0x0000 ∧
    coilTransform (.bool true) = .int 0xFF00 := by
  refine ⟨?_, ?_, rfl, rfl, rfl, rfl, rfl, rfl⟩
  · intro v
    cases v with
    | bool b => cases b <;> simp [coilTransform]
    | str s => simp [coilTransform]
    | int n => simp [coilTransform]
    | arr l => simp [coilTransform]
    | obj o => simp [coilTransform]
    | null => simp [coilTransform]
  · intro entries t
    rfl

/-- C10: reading the `client_data` property while the latest published
snapshot message is the empty mapping leaves the cached `_client_data`
field unchanged and returns the previously stored snapshot; the field is
replaced only when the message value is truthy (non-empty). -/
theorem c10_client_data_stale_cache (cache msg : JObj) (hmsg : msg = []) :
    (client_data cache msg).1 = cache ∧
    (client_data cache msg).2 = cache ∧
    (∀ m : JObj, (client_data cache m).1 ≠ cache → truthy (.obj m) = true) := by
  subst hmsg
  refine ⟨rfl, rfl, ?_⟩
  intro m hm
  by_cases h : truthy (.obj m) = true
  · exact h
  · exact absurd (by simp [client_data, h]) hm

/-- C10 witness: with a previously stored non-empty snapshot and an empty
latest message the cache is kept and returned. -/
theorem c10_client_data_stale_cache_witness :
    (client_data [("HREGS", JValue.int 1)] []).1 = [("HREGS", JValue.int 1)] ∧
    (client_data [("HREGS", JValue.int 1)] []).2 = [("HREGS", JValue.int 1)] := by
  have h := c10_client_data_stale_cache [("HREGS", JValue.int 1)] [] rfl
  exact ⟨h.1, h.2.1⟩

/-- C3 counterexample: with the station interface inactive and the
access-point interface inactive, `_get_network_ip` returns the default
`0.0.0.0` instead of failing, and `setup_connection`'s TCP-responder
branch succeeds and proceeds to bind to that default address — refuting
the claim that connection setup fails with an error and does not bind. -/
theorem c3_no_ip_counterexample :
    getNetworkIpResult ⟨false, false, "192.168.0.5", false, "192.168.4.1"⟩
      = ("0.0.0.0", false) ∧
    setupTcpResponder [("unit", JValue.int 502)]
        ⟨false, false, "192.168.0.5", false, "192.168.4.1"⟩ (.ok false)
      = .ok [.getBoundStatus, .bindCall "0.0.0.0" 502, .setupRegisters] :=
  ⟨rfl, rfl⟩

/-- C3 amended: the bind IP is resolved preferring an active and connected
station interface, falling back to an active access-point interface; if
neither interface yields an address, the default `0.0.0.0` is used (with
the warning flag set) and connection setup still succeeds and proceeds to
bind to the resolved address. -/
theorem c3_bind_ip_resolution (net : NetState) (hostCfg : JObj) (u : JValue)
    (port : Int) (hu : alookup hostCfg "unit" = some u)
    (hp : pyIntCoerce u = some port) :
    setupTcpResponder hostCfg net (.ok false)
      = .ok [.getBoundStatus, .bindCall (getNetworkIp net) port,
             .setupRegisters] ∧
    (net.stationActive = true → net.stationConnected = true →
       getNetworkIp net = net.stationIp) ∧
    (¬(net.stationActive = true ∧ net.stationConnected = true) →
       net.apActive = true → getNetworkIp net = net.apIp) ∧
    (¬(net.stationActive = true ∧ net.stationConnected = true) →
       net.apActive = false →
       getNetworkIp net = "0.0.0.0" ∧ (getNetworkIpResult net).2 = false) := by
  obtain ⟨sa, sc, sip, aa, aip⟩ := net
  refine ⟨by simp [setupTcpResponder, hu, hp], ?_, ?_, ?_⟩ <;>
    cases sa <;> cases sc <;> cases aa <;>
      simp [getNetworkIp, getNetworkIpResult]

/-- C3 witness for the amended claim: a connected station is preferred even
when the access point is also active, and the setup trace binds to it. -/
theorem c3_bind_ip_resolution_witness :
    setupTcpResponder [("unit", JValue.int 502)]
        ⟨true, true, "10.1.1.2", true, "192.168.4.1"⟩ (.ok false)
      = .ok [.getBoundStatus, .bindCall "10.1.1.2" 502, .setupRegisters] ∧
    getNetworkIp ⟨true, true, "10.1.1.2", true, "192.168.4.1"⟩ = "10.1.1.2" := by
  have h := c3_bind_ip_resolution ⟨true, true, "10.1.1.2", true, "192.168.4.1"⟩
    [("unit", JValue.int 502)] (JValue.int 502) 502 rfl rfl
  refine ⟨?_, h.2.1 rfl rfl⟩
  have h1 := h.1
  rwa [h.2.1 rfl rfl] at h1

/-- C7: in a provisioner sync cycle the push phase (`_update_client_data`)
runs strictly before the pull phase (`_update_host_data`): the cycle trace
decomposes as push events followed by pull events, and the pull events are
exactly the host-data update of the latest snapshot regardless of the
write transport — in particular the pull phase runs unchanged even when
some or all pushes of the cycle failed. -/
theorem c7_push_before_pull (captured : RegBatch)
    (clientData : List (String × ContentList)) (t t' : WriteTransport) :
    (∃ p q, provision_sync_trace captured clientData t = p ++ q ∧
       (∀ e ∈ p, isPullEvent e = false) ∧
       (∀ e ∈ q, isPullEvent e = true) ∧
       q = update_host_data_trace clientData) ∧
    (provision_sync_trace captured clientData t).filter isPullEvent
      = (provision_sync_trace captured clientData t').filter isPullEvent := by
  have hpush : ∀ (tt : WriteTransport) e,
      e ∈ update_client_data_trace captured tt → isPullEvent e = false := by
    intro tt e he
    unfold update_client_data_trace at he
    split at he
    · rcases List.mem_append.1 he with h | h
      · obtain ⟨x, _, rfl⟩ := List.mem_map.1 h
        rfl
      · obtain ⟨x, _, rfl⟩ := List.mem_map.1 h
        rfl
    · cases he
  have hpull : ∀ e ∈ update_host_data_trace clientData, isPullEvent e = true := by
    intro e he
    unfold update_host_data_trace at he
    obtain ⟨l, hl, hel⟩ := List.mem_flatten.1 he
    obtain ⟨cls, _, rfl⟩ := List.mem_map.1 hl
    split at hel
    · obtain ⟨x, _, rfl⟩ := List.mem_map.1 hel
      rfl
    · cases hel
  have hf : ∀ tt : WriteTransport,
      (provision_sync_trace captured clientData tt).filter isPullEvent
        = update_host_data_trace clientData := by
    intro tt
    unfold provision_sync_trace
    rw [List.filter_append]
    have h1 : (update_client_data_trace captured tt).filter isPullEvent = [] := by
      apply List.filter_eq_nil_iff.2
      intro e he
      simp [hpush tt e he]
    have h2 : (update_host_data_trace clientData).filter isPullEvent
        = update_host_data_trace clientData := by
      apply List.filter_eq_self.2
      intro e he
      simp [hpull e he]
    rw [h1, h2, List.nil_append]
  exact ⟨⟨update_client_data_trace captured t, update_host_data_trace clientData,
          rfl, hpush t, hpull, rfl⟩, by rw [hf t, hf t']⟩

/-- C6: in a read pass, a register whose transport read fails is omitted
from the class result while every other register with a successful read is
still included with its value — computed from its own transport outcome
only — and a class present in the register definitions always contributes
its (total, never-raising) per-class result to `read_all_registers`. -/
theorem c6_read_failure_isolated (defs : DefList)
    (orc : Nat → Nat → Option (List JValue)) (k : String) (d : RegDef)
    (hn : (defs.map Prod.fst).Nodup) (hm : (k, d) ∈ defs) :
    (orc d.register d.len = none →
       alookup (readClassRegisters defs orc) k = none) ∧
    (∀ vs, orc d.register d.len = some vs →
       alookup (readClassRegisters defs orc) k
         = some (RegEntry.mk d.register (mkRegVal vs))) ∧
    (∀ (rd : RegisterDefs) (t : ReadTransport), rd.coils = some defs →
       alookup (read_all_registers rd t) "COILS"
         = some (read_coil_registers defs t)) := by
  have hF : ∀ (p : String × RegDef) (q : String × RegEntry),
      (orc p.2.register p.2.len).map
        (fun vs => (p.1, RegEntry.mk p.2.register (mkRegVal vs))) = some q →
      q.1 = p.1 := by
    intro p q hq
    cases horc : orc p.2.register p.2.len with
    | none => rw [horc] at hq; cases hq
    | some vs =>
      rw [horc] at hq
      cases hq
      rfl
  have key := alookup_filterMap_eq
    (fun p => (orc p.2.register p.2.len).map
      (fun vs => (p.1, RegEntry.mk p.2.register (mkRegVal vs))))
    hF defs k d hn hm
  refine ⟨?_, ?_, ?_⟩
  · intro h
    rw [show readClassRegisters defs orc
          = defs.filterMap (fun p => (orc p.2.register p.2.len).map
              (fun vs => (p.1, RegEntry.mk p.2.register (mkRegVal vs))))
        from rfl, key]
    simp [h]
  · intro vs h
    rw [show readClassRegisters defs orc
          = defs.filterMap (fun p => (orc p.2.register p.2.len).map
              (fun vs => (p.1, RegEntry.mk p.2.register (mkRegVal vs))))
        from rfl, key]
    simp [h]
  · intro rd t h
    unfold read_all_registers
    rw [h]
    simp [alookup]

/-- C6 witness: in a two-register COILS pass where reading register 10
raises, the key `temp` is omitted, the key `hum` (register 20) is still
read and included, and the class result is what `read_all_registers`
publishes for COILS. -/
theorem c6_read_failure_isolated_witness :
    alookup (readClassRegisters [("temp", ⟨10, 1⟩), ("hum", ⟨20, 1⟩)]
      (fun a _ => if a = 10 then none else some [JValue.int 3])) "temp"
      = none ∧
    alookup (readClassRegisters [("temp", ⟨10, 1⟩), ("hum", ⟨20, 1⟩)]
      (fun a _ => if a = 10 then none else some [JValue.int 3])) "hum"
      = some (RegEntry.mk 20 (JValue.int 3)) ∧
    alookup (read_all_registers
        ⟨some [("temp", ⟨10, 1⟩), ("hum", ⟨20, 1⟩)], none, none, none⟩
        ⟨fun a _ => if a = 10 then none else some [JValue.int 3],
         fun _ _ => none, fun _ _ => none, fun _ _ => none⟩) "COILS"
      = some (read_coil_registers [("temp", ⟨10, 1⟩), ("hum", ⟨20, 1⟩)]
          ⟨fun a _ => if a = 10 then none else some [JValue.int 3],
           fun _ _ => none, fun _ _ => none, fun _ _ => none⟩) := by
  have h1 := c6_read_failure_isolated [("temp", ⟨10, 1⟩), ("hum", ⟨20, 1⟩)]
    (fun a _ => if a = 10 then none else some [JValue.int 3]) "temp" ⟨10, 1⟩
    (by simp) (by simp)
  have h2 := c6_read_failure_isolated [("temp", ⟨10, 1⟩), ("hum", ⟨20, 1⟩)]
    (fun a _ => if a = 10 then none else some [JValue.int 3]) "hum" ⟨20, 1⟩
    (by simp) (by simp)
  exact ⟨h1.1 rfl, h2.2.1 [JValue.int 3] rfl, h2.2.2 _ _ rfl⟩

theorem alookup_append {κ α : Type} [DecidableEq κ]
    (A B : List (κ × α)) (k : κ) :
    alookup (A ++ B) k
      = match alookup A k with
        | some v => some v
        | none => alookup B k := by
  induction A with
  | nil => rfl
  | cons hd tl ih =>
    obtain ⟨k', v⟩ := hd
    by_cases hk : k' = k
    · simp [alookup, hk]
    · simp only [List.cons_append, alookup, if_neg hk]
      exact ih

theorem alookup_iftag {κ β : Type} [DecidableEq κ] (b : Bool) (k k' : κ) (x : β) :
    alookup (if b then [] else [(k, x)]) k'
      = if b then none else if k = k' then some x else none := by
  cases b <;> simp [alookup]

/-- Lookup of one class in the failed/successful output shape of
`write_all_registers`: a class sub-dict is found exactly when non-empty. -/
theorem alookup_classpair_left (a b : EntryList) :
    alookup ((if a.isEmpty then [] else [("COILS", a)]) ++
             (if b.isEmpty then [] else [("HREGS", b)])) "COILS"
      = if a.isEmpty then none else some a := by
  rw [alookup_append, alookup_iftag, alookup_iftag]
  cases a.isEmpty <;> cases b.isEmpty <;> simp

theorem alookup_classpair_right (a b : EntryList) :
    alookup ((if a.isEmpty then [] else [("COILS", a)]) ++
             (if b.isEmpty then [] else [("HREGS", b)])) "HREGS"
      = if b.isEmpty then none else some b := by
  rw [alookup_append, alookup_iftag, alookup_iftag]
  cases a.isEmpty <;> cases b.isEmpty <;> simp

/-- C4: `write_all_registers` partitions the COILS and HREGS entries of a
batch into the returned (failed, successful) dicts exactly by transport
outcome — an entry lands in the successful dict of its class if and only
if its write call returned truthy, the failed dict otherwise, and never in
both — and every transport call issued by the pass is for the COILS or
HREGS class, never for ISTS or IREGS. -/
theorem c4_write_partition (batch : RegBatch) (t : WriteTransport) :
    (∀ e ∈ (write_all_registers batch t).2.2,
       e.1 = "COILS" ∨ e.1 = "HREGS") ∧
    (∀ entries addr ent, alookup batch "COILS" = some entries →
       (entries.map Prod.fst).Nodup → (addr, ent) ∈ entries →
       ((t.write_single_coil addr (coilTransform ent.val) = true →
           lookupLedger (write_all_registers batch t).2.1 "COILS" addr
             = some ent ∧
           lookupLedger (write_all_registers batch t).1 "COILS" addr
             = none) ∧
        (t.write_single_coil addr (coilTransform ent.val) = false →
           lookupLedger (write_all_registers batch t).1 "COILS" addr
             = some ent ∧
           lookupLedger (write_all_registers batch t).2.1 "COILS" addr
             = none))) ∧
    (∀ entries addr ent, alookup batch "HREGS" = some entries →
       (entries.map Prod.fst).Nodup → (addr, ent) ∈ entries →
       ((t.write_single_register addr ent.val = true →
           lookupLedger (write_all_registers batch t).2.1 "HREGS" addr
             = some ent ∧
           lookupLedger (write_all_registers batch t).1 "HREGS" addr
             = none) ∧
        (t.write_single_register addr ent.val = false →
           lookupLedger (write_all_registers batch t).1 "HREGS" addr
             = some ent ∧
           lookupLedger (write_all_registers batch t).2.1 "HREGS" addr
             = none))) := by
  refine ⟨?_, ?_, ?_⟩
  · intro e he
    simp only [write_all_registers] at he
    rcases List.mem_append.1 he with h | h
    · obtain ⟨x, _, rfl⟩ := List.mem_map.1 h
      exact Or.inl rfl
    · obtain ⟨x, _, rfl⟩ := List.mem_map.1 h
      exact Or.inr rfl
  · intro entries addr ent hC hn hm
    have hfail : alookup (write_all_registers batch t).1 "COILS"
        = (if ((write_coil_registers entries t).1).isEmpty then none
           else some (write_coil_registers entries t).1) := by
      simp only [write_all_registers, hC]
      exact alookup_classpair_left _ _
    have hsucc : alookup (write_all_registers batch t).2.1 "COILS"
        = (if ((write_coil_registers entries t).2.1).isEmpty then none
           else some (write_coil_registers entries t).2.1) := by
      simp only [write_all_registers, hC]
      exact alookup_classpair_left _ _
    have hlookS := alookup_filter_eq_of_nodup entries
      (fun p => t.write_single_coil p.1 (coilTransform p.2.val)) addr ent hn hm
    have hlookF := alookup_filter_eq_of_nodup entries
      (fun p => !t.write_single_coil p.1 (coilTransform p.2.val)) addr ent hn hm
    constructor
    · intro h
      have hmemS : (addr, ent) ∈ (write_coil_registers entries t).2.1 :=
        List.mem_filter.2 ⟨hm, by simpa using h⟩
      have hneS : ((write_coil_registers entries t).2.1).isEmpty = false := by
        simp [List.isEmpty_iff, List.ne_nil_of_mem hmemS]
      constructor
      · unfold lookupLedger
        rw [hsucc, hneS]
        simp only [Bool.false_eq_true, if_false, Option.some_bind]
        show alookup (entries.filter
          (fun p => t.write_single_coil p.1 (coilTransform p.2.val))) addr
            = some ent
        rw [hlookS]
        simp [h]
      · unfold lookupLedger
        rw [hfail]
        cases hE : ((write_coil_registers entries t).1).isEmpty with
        | true => simp
        | false =>
          simp only [Bool.false_eq_true, if_false, Option.some_bind]
          show alookup (entries.filter
            (fun p => !t.write_single_coil p.1 (coilTransform p.2.val))) addr
              = none
          rw [hlookF]
          simp [h]
    · intro h
      have hmemF : (addr, ent) ∈ (write_coil_registers entries t).1 :=
        List.mem_filter.2 ⟨hm, by simp [h]⟩
      have hneF : ((write_coil_registers entries t).1).isEmpty = false := by
        simp [List.isEmpty_iff, List.ne_nil_of_mem hmemF]
      constructor
      · unfold lookupLedger
        rw [hfail, hneF]
        simp only [Bool.false_eq_true, if_false, Option.some_bind]
        show alookup (entries.filter
          (fun p => !t.write_single_coil p.1 (coilTransform p.2.val))) addr
            = some ent
        rw [hlookF]
        simp [h]
      · unfold lookupLedger
        rw [hsucc]
        cases hE : ((write_coil_registers entries t).2.1).isEmpty with
        | true => simp
        | false =>
          simp only [Bool.false_eq_true, if_false, Option.some_bind]
          show alookup (entries.filter
            (fun p => t.write_single_coil p.1 (coilTransform p.2.val))) addr
              = none
          rw [hlookS]
          simp [h]
  · intro entries addr ent hH hn hm
    have hfail : alookup (write_all_registers batch t).1 "HREGS"
        = (if ((write_hregs_registers entries t).1).isEmpty then none
           else some (write_hregs_registers entries t).1) := by
      simp only [write_all_registers, hH]
      exact alookup_classpair_right _ _
    have hsucc : alookup (write_all_registers batch t).2.1 "HREGS"
        = (if ((write_hregs_registers entries t).2.1).isEmpty then none
           else some (write_hregs_registers entries t).2.1) := by
      simp only [write_all_registers, hH]
      exact alookup_classpair_right _ _
    have hlookS := alookup_filter_eq_of_nodup entries
      (fun p => t.write_single_register p.1 p.2.val) addr ent hn hm
    have hlookF := alookup_filter_eq_of_nodup entries
      (fun p => !t.write_single_register p.1 p.2.val) addr ent hn hm
    constructor
    · intro h
      have hmemS : (addr, ent) ∈ (write_hregs_registers entries t).2.1 :=
        List.mem_filter.2 ⟨hm, by simpa using h⟩
      have hneS : ((write_hregs_registers entries t).2.1).isEmpty = false := by
        simp [List.isEmpty_iff, List.ne_nil_of_mem hmemS]
      constructor
      · unfold lookupLedger
        rw [hsucc, hneS]
        simp only [Bool.false_eq_true, if_false, Option.some_bind]
        show alookup (entries.filter
          (fun p => t.write_single_register p.1 p.2.val)) addr = some ent
        rw [hlookS]
        simp [h]
      · unfold lookupLedger
        rw [hfail]
        cases hE : ((write_hregs_registers entries t).1).isEmpty with
        | true => simp
        | false =>
          simp only [Bool.false_eq_true, if_false, Option.some_bind]
          show alookup (entries.filter
            (fun p => !t.write_single_register p.1 p.2.val)) addr = none
          rw [hlookF]
          simp [h]
    · intro h
      have hmemF : (addr, ent) ∈ (write_hregs_registers entries t).1 :=
        List.mem_filter.2 ⟨hm, by simp [h]⟩
      have hneF : ((write_hregs_registers entries t).1).isEmpty = false := by
        simp [List.isEmpty_iff, List.ne_nil_of_mem hmemF]
      constructor
      · unfold lookupLedger
        rw [hfail, hneF]
        simp only [Bool.false_eq_true, if_false, Option.some_bind]
        show alookup (entries.filter
          (fun p => !t.write_single_register p.1 p.2.val)) addr = some ent
        rw [hlookF]
        simp [h]
      · unfold lookupLedger
        rw [hsucc]
        cases hE : ((write_hregs_registers entries t).2.1).isEmpty with
        | true => simp
        | false =>
          simp only [Bool.false_eq_true, if_false, Option.some_bind]
          show alookup (entries.filter
            (fun p => t.write_single_register p.1 p.2.val)) addr = none
          rw [hlookS]
          simp [h]

/-- C4 witness: a batch of five writes (two coils, three holding
registers) where the transport fails exactly for coil 2 and holding
register 22: the three others are in the successful dict of their class,
the two failures in the failed dict, each appearing on one side only. -/
theorem c4_write_partition_witness :
    (lookupLedger (write_all_registers
        [("COILS", [(1, ⟨JValue.bool true, 11⟩), (2, ⟨JValue.bool true, 12⟩)]),
         ("HREGS", [(21, ⟨JValue.int 21, 13⟩), (22, ⟨JValue.int 22, 14⟩),
                    (23, ⟨JValue.int 23, 15⟩)])]
        ⟨fun a _ => a != 2, fun a _ => a != 22⟩).2.1 "COILS" 1
        = some ⟨JValue.bool true, 11⟩ ∧
     lookupLedger (write_all_registers
        [("COILS", [(1, ⟨JValue.bool true, 11⟩), (2, ⟨JValue.bool true, 12⟩)]),
         ("HREGS", [(21, ⟨JValue.int 21, 13⟩), (22, ⟨JValue.int 22, 14⟩),
                    (23, ⟨JValue.int 23, 15⟩)])]
        ⟨fun a _ => a != 2, fun a _ => a != 22⟩).1 "COILS" 1 = none) ∧
    (lookupLedger (write_all_registers
        [("COILS", [(1, ⟨JValue.bool true, 11⟩), (2, ⟨JValue.bool true, 12⟩)]),
         ("HREGS", [(21, ⟨JValue.int 21, 13⟩), (22, ⟨JValue.int 22, 14⟩),
                    (23, ⟨JValue.int 23, 15⟩)])]
        ⟨fun a _ => a != 2, fun a _ => a != 22⟩).1 "COILS" 2
        = some ⟨JValue.bool true, 12⟩ ∧
     lookupLedger (write_all_registers
        [("COILS", [(1, ⟨JValue.bool true, 11⟩), (2, ⟨JValue.bool true, 12⟩)]),
         ("HREGS", [(21, ⟨JValue.int 21, 13⟩), (22, ⟨JValue.int 22, 14⟩),
                    (23, ⟨JValue.int 23, 15⟩)])]
        ⟨fun a _ => a != 2, fun a _ => a != 22⟩).2.1 "COILS" 2 = none) ∧
    (lookupLedger (write_all_registers
        [("COILS", [(1, ⟨JValue.bool true, 11⟩), (2, ⟨JValue.bool true, 12⟩)]),
         ("HREGS", [(21, ⟨JValue.int 21, 13⟩), (22, ⟨JValue.int 22, 14⟩),
                    (23, ⟨JValue.int 23, 15⟩)])]
        ⟨fun a _ => a != 2, fun a _ => a != 22⟩).2.1 "HREGS" 21
        = some ⟨JValue.int 21, 13⟩) ∧
    (lookupLedger (write_all_registers
        [("COILS", [(1, ⟨JValue.bool true, 11⟩), (2, ⟨JValue.bool true, 12⟩)]),
         ("HREGS", [(21, ⟨JValue.int 21, 13⟩), (22, ⟨JValue.int 22, 14⟩),
                    (23, ⟨JValue.int 23, 15⟩)])]
        ⟨fun a _ => a != 2, fun a _ => a != 22⟩).1 "HREGS" 22
        = some ⟨JValue.int 22, 14⟩) ∧
    (lookupLedger (write_all_registers
        [("COILS", [(1, ⟨JValue.bool true, 11⟩), (2, ⟨JValue.bool true, 12⟩)]),
         ("HREGS", [(21, ⟨JValue.int 21, 13⟩), (22, ⟨JValue.int 22, 14⟩),
                    (23, ⟨JValue.int 23, 15⟩)])]
        ⟨fun a _ => a != 2, fun a _ => a != 22⟩).2.1 "HREGS" 23
        = some ⟨JValue.int 23, 15⟩) := by
  have h := c4_write_partition
    [("COILS", [(1, ⟨JValue.bool true, 11⟩), (2, ⟨JValue.bool true, 12⟩)]),
     ("HREGS", [(21, ⟨JValue.int 21, 13⟩), (22, ⟨JValue.int 22, 14⟩),
                (23, ⟨JValue.int 23, 15⟩)])]
    ⟨fun a _ => a != 2, fun a _ => a != 22⟩
  have hc1 := h.2.1 [(1, ⟨JValue.bool true, 11⟩), (2, ⟨JValue.bool true, 12⟩)]
    1 ⟨JValue.bool true, 11⟩ rfl (by simp) (by simp)
  have hc2 := h.2.1 [(1, ⟨JValue.bool true, 11⟩), (2, ⟨JValue.bool true, 12⟩)]
    2 ⟨JValue.bool true, 12⟩ rfl (by simp) (by simp)
  have hh21 := h.2.2 [(21, ⟨JValue.int 21, 13⟩), (22, ⟨JValue.int 22, 14⟩),
    (23, ⟨JValue.int 23, 15⟩)] 21 ⟨JValue.int 21, 13⟩ rfl (by simp) (by simp)
  have hh22 := h.2.2 [(21, ⟨JValue.int 21, 13⟩), (22, ⟨JValue.int 22, 14⟩),
    (23, ⟨JValue.int 23, 15⟩)] 22 ⟨JValue.int 22, 14⟩ rfl (by simp) (by simp)
  have hh23 := h.2.2 [(21, ⟨JValue.int 21, 13⟩), (22, ⟨JValue.int 22, 14⟩),
    (23, ⟨JValue.int 23, 15⟩)] 23 ⟨JValue.int 23, 15⟩ rfl (by simp) (by simp)
  exact ⟨hc1.1 rfl, ⟨(hc2.2 rfl).1, (hc2.2 rfl).2⟩, (hh21.1 rfl).1,
         (hh22.2 rfl).1, (hh23.1 rfl).1⟩

theorem alookup_removeChanged (ledger : RegBatch) (cls : String)
    (addr ts : Nat) :
    alookup (removeChangedRegister ledger cls addr ts) cls
      = (alookup ledger cls).map
          (fun es => es.filter (fun q => !(q.1 == addr && q.2.time == ts))) := by
  induction ledger with
  | nil => rfl
  | cons hd tl ih =>
    obtain ⟨c, es⟩ := hd
    by_cases h : c = cls
    · subst h
      have h1 : removeChangedRegister ((c, es) :: tl) c addr ts
          = (c, es.filter (fun q => !(q.1 == addr && q.2.time == ts)))
            :: removeChangedRegister tl c addr ts := by
        simp [removeChangedRegister]
      rw [h1]
      simp [alookup]
    · simp only [removeChangedRegister, List.map_cons, if_neg h]
      simp only [alookup, if_neg h]
      simp only [removeChangedRegister] at ih
      exact ih

/-- C2: a ledger entry confirmed written in a sync cycle is removed via its
captured timestamp: the push phase invokes removal with exactly the
`time` captured for that class and address, and the (spec-modelled)
compare-and-delete leaves in place an entry at the same class and address
whose timestamp differs (a newer write that arrived in-flight survives),
while an entry whose timestamp matches is removed. -/
theorem c2_removal_uses_captured_timestamp
    (captured : RegBatch) (t : WriteTransport) (cls : String)
    (entries : EntryList) (addr : Nat) (e : LedgerEntry)
    (hcls : cls = "COILS" ∨ cls = "HREGS")
    (hcap : alookup captured cls = some entries)
    (hm : (addr, e) ∈ entries)
    (hsucc : classWriteOrc t cls addr (classWire cls e.val) = true) :
    (cls, addr, e.time) ∈ update_client_data_removals captured t ∧
    (∀ ledger e2, lookupLedger ledger cls addr = some e2 →
       e2.time ≠ e.time →
       lookupLedger (removeChangedRegister ledger cls addr e.time) cls addr
         = some e2) ∧
    (∀ ledger es e2, alookup ledger cls = some es →
       (es.map Prod.fst).Nodup → alookup es addr = some e2 →
       e2.time = e.time →
       lookupLedger (removeChangedRegister ledger cls addr e.time) cls addr
         = none) := by
  refine ⟨?_, ?_, ?_⟩
  · have hany : captured.any (fun p => decide (p.1 ≠ "")) = true := by
      apply List.any_eq_true.2
      refine ⟨(cls, entries), mem_of_alookup_eq_some captured cls entries hcap, ?_⟩
      rcases hcls with rfl | rfl <;> simp
    unfold update_client_data_removals
    rw [if_pos hany]
    rcases hcls with rfl | rfl
    · simp only [classWriteOrc, classWire, if_pos rfl] at hsucc
      have hmemS : (addr, e) ∈ (write_coil_registers entries t).2.1 :=
        List.mem_filter.2 ⟨hm, by simpa using hsucc⟩
      have hneS : ((write_coil_registers entries t).2.1).isEmpty = false := by
        simp [List.isEmpty_iff, List.ne_nil_of_mem hmemS]
      have hmemSucc : ("COILS", (write_coil_registers entries t).2.1)
          ∈ (write_all_registers captured t).2.1 := by
        simp only [write_all_registers, hcap, hneS, Bool.false_eq_true,
          if_false]
        exact List.mem_append_left _ (List.mem_singleton.2 rfl)
      apply List.mem_flatten.2
      refine ⟨((write_coil_registers entries t).2.1).map
        (fun q => ("COILS", q.1, q.2.time)), ?_, ?_⟩
      · exact List.mem_map.2 ⟨_, hmemSucc, rfl⟩
      · exact List.mem_map.2 ⟨(addr, e), hmemS, rfl⟩
    · have hne' : ¬("HREGS" : String) = "COILS" := by simp
      simp only [classWriteOrc, classWire, if_neg hne'] at hsucc
      have hmemS : (addr, e) ∈ (write_hregs_registers entries t).2.1 :=
        List.mem_filter.2 ⟨hm, by simpa using hsucc⟩
      have hneS : ((write_hregs_registers entries t).2.1).isEmpty = false := by
        simp [List.isEmpty_iff, List.ne_nil_of_mem hmemS]
      have hmemSucc : ("HREGS", (write_hregs_registers entries t).2.1)
          ∈ (write_all_registers captured t).2.1 := by
        simp only [write_all_registers, hcap, hneS, Bool.false_eq_true,
          if_false]
        exact List.mem_append_right _ (List.mem_singleton.2 rfl)
      apply List.mem_flatten.2
      refine ⟨((write_hregs_registers entries t).2.1).map
        (fun q => ("HREGS", q.1, q.2.time)), ?_, ?_⟩
      · exact List.mem_map.2 ⟨_, hmemSucc, rfl⟩
      · exact List.mem_map.2 ⟨(addr, e), hmemS, rfl⟩
  · intro ledger e2 hl hne2
    unfold lookupLedger at hl ⊢
    cases hes : alookup ledger cls with
    | none => rw [hes] at hl; cases hl
    | some es =>
      rw [hes] at hl
      simp only [Option.some_bind] at hl
      rw [alookup_removeChanged, hes]
      simp only [Option.map_some', Option.some_bind]
      apply alookup_filter_of_pos es _ addr e2 hl
      simp [hne2]
  · intro ledger es e2 hes hn hae heq
    unfold lookupLedger
    rw [alookup_removeChanged, hes]
    simp only [Option.map_some', Option.some_bind]
    have hmem := mem_of_alookup_eq_some es addr e2 hae
    rw [alookup_filter_eq_of_nodup es
      (fun q => !(q.1 == addr && q.2.time == e.time)) addr e2 hn hmem]
    simp [heq]

/-- C2 witness: pushing the ledger entry (HREGS, addr 21, val 21, ts 5)
successfully invokes removal with timestamp 5; a newer ledger state
holding (HREGS, 21, val 22, ts 6) survives that removal, while a state
still holding the ts-5 entry has it removed. -/
theorem c2_removal_uses_captured_timestamp_witness :
    ("HREGS", 21, 5) ∈ update_client_data_removals
      [("HREGS", [(21, ⟨JValue.int 21, 5⟩)])]
      ⟨fun _ _ => true, fun _ _ => true⟩ ∧
    lookupLedger (removeChangedRegister
      [("HREGS", [(21, ⟨JValue.int 22, 6⟩)])] "HREGS" 21 5) "HREGS" 21
      = some ⟨JValue.int 22, 6⟩ ∧
    lookupLedger (removeChangedRegister
      [("HREGS", [(21, ⟨JValue.int 21, 5⟩)])] "HREGS" 21 5) "HREGS" 21
      = none := by
  have h := c2_removal_uses_captured_timestamp
    [("HREGS", [(21, ⟨JValue.int 21, 5⟩)])]
    ⟨fun _ _ => true, fun _ _ => true⟩ "HREGS"
    [(21, ⟨JValue.int 21, 5⟩)] 21 ⟨JValue.int 21, 5⟩
    (Or.inr rfl) rfl (by simp) rfl
  exact ⟨h.1,
         h.2.1 [("HREGS", [(21, ⟨JValue.int 22, 6⟩)])] ⟨JValue.int 22, 6⟩
           rfl (by decide),
         h.2.2 [("HREGS", [(21, ⟨JValue.int 21, 5⟩)])]
           [(21, ⟨JValue.int 21, 5⟩)] ⟨JValue.int 21, 5⟩ rfl (by simp) rfl rfl⟩

theorem adoptedBlock_inv (regs : JObj) (cc : JObj)
    (h : adoptedBlock regs = some cc) :
    truthy (.obj regs) = true ∧
    alookup regs "CONNECTION" = some (.obj cc) ∧
    truthy (.obj cc) = true ∧
    requiredKeys.all (fun k => hasKey cc (pyLower k)) = true := by
  unfold adoptedBlock at h
  split at h
  case isTrue h1 =>
    split at h
    case h_1 cc' heq =>
      split at h
      case isTrue h2 =>
        cases h
        rw [Bool.and_eq_true] at h2
        exact ⟨h1, heq, h2.1, h2.2⟩
      case isFalse h2 => cases h
    case h_2 => cases h
  case isFalse h1 => cases h

theorem adoptedBlock_eq_some (regs : JObj) (cc : JObj)
    (h1 : truthy (.obj regs) = true)
    (h2 : alookup regs "CONNECTION" = some (.obj cc))
    (h3 : truthy (.obj cc) = true)
    (h4 : requiredKeys.all (fun k => hasKey cc (pyLower k)) = true) :
    adoptedBlock regs = some cc := by
  simp [adoptedBlock, h1, h2, h3, h4]

/-- Full characterization of the successful outcomes of
`_load_connection_settings`: either no block was adopted and the state is
untouched, or the adopted block's mode decided which single connection
(client for slave, host for master) was populated. -/
theorem load_ok_inv (regs : JObj) (st : ConnSettings)
    (h : loadConnectionSettings regs = .ok st) :
    (st = initSettings ∧ adoptedBlock regs = none) ∨
    (∃ cc u m, adoptedBlock regs = some cc ∧ alookup cc "unit" = some u ∧
       alookup cc "mode" = some (JValue.str m) ∧
       ((pyLower m = "slave" ∧
           st = ConnSettings.mk (some cc) none (pyToInt u) 0) ∨
        (pyLower m ≠ "slave" ∧ pyLower m = "master" ∧
           st = ConnSettings.mk none (some cc) 0 (pyToInt u)))) := by
  unfold loadConnectionSettings at h
  split at h
  case isFalse h1 =>
    cases h
    exact Or.inl ⟨rfl, by simp [adoptedBlock, h1]⟩
  case isTrue h1 =>
    split at h
    case h_2 heq =>
      cases h
      exact Or.inl ⟨rfl, by simp [adoptedBlock, h1, heq]⟩
    case h_1 cv heq =>
      split at h
      case isFalse h3 =>
        cases h
        refine Or.inl ⟨rfl, ?_⟩
        cases cv <;> simp_all [adoptedBlock]
      case isTrue h3 =>
        split at h
        case h_2 => simp at h
        case h_1 cc =>
          split at h
          case isFalse h4 =>
            cases h
            refine Or.inl ⟨rfl, ?_⟩
            simp only [adoptedBlock, h1, if_true, heq]
            simp [h4]
          case isTrue h4 =>
            split at h
            case h_2 => simp at h
            case h_3 => simp at h
            case h_1 t htype =>
              split at h
              case h_1 e hTC => simp at h
              case h_2 hTC =>
                split at h
                case h_2 hu => simp at h
                case h_1 u hu =>
                  split at h
                  case isFalse h5 => simp at h
                  case isTrue h5 =>
                    split at h
                    case h_2 => simp at h
                    case h_3 => simp at h
                    case h_1 m hmode =>
                      have had := adoptedBlock_eq_some regs cc h1 heq h3
                        (by simpa using h4)
                      split at h
                      case isTrue h6 =>
                        cases h
                        exact Or.inr ⟨cc, u, m, had, hu, hmode,
                          Or.inl ⟨h6, rfl⟩⟩
                      case isFalse h6 =>
                        split at h
                        case isTrue h7 =>
                          cases h
                          exact Or.inr ⟨cc, u, m, had, hu, hmode,
                            Or.inr ⟨h6, h7, rfl⟩⟩
                        case isFalse h7 => simp at h

/-- C1: for every register file on which connection extraction succeeds, a
client connection is populated if and only if the adopted connection block
has `mode=slave` (and all required keys), and a host connection if and
only if it has `mode=master`; the slave-mode block itself becomes the
client connection and the master-mode block the host connection. -/
theorem c1_connection_role_mapping (regs : JObj) (st : ConnSettings)
    (h : loadConnectionSettings regs = .ok st) :
    (st.client.isSome = true ↔
       ∃ cc, adoptedBlock regs = some cc ∧ modeLower cc = some "slave") ∧
    (st.host.isSome = true ↔
       ∃ cc, adoptedBlock regs = some cc ∧ modeLower cc = some "master") ∧
    (∀ cc, adoptedBlock regs = some cc → modeLower cc = some "slave" →
       st.client = some cc ∧ st.host = none) ∧
    (∀ cc, adoptedBlock regs = some cc → modeLower cc = some "master" →
       st.host = some cc ∧ st.client = none) := by
  rcases load_ok_inv regs st h with ⟨rfl, hnone⟩ | ⟨cc, u, m, had, hu, hmode, hcase⟩
  · refine ⟨?_, ?_, ?_, ?_⟩
    · simp [initSettings, hnone]
    · simp [initSettings, hnone]
    · intro cc h1 h2
      rw [hnone] at h1
      cases h1
    · intro cc h1 h2
      rw [hnone] at h1
      cases h1
  · have hml : modeLower cc = some (pyLower m) := by simp [modeLower, hmode]
    rcases hcase with ⟨hs, rfl⟩ | ⟨hns, hmst, rfl⟩
    · refine ⟨?_, ?_, ?_, ?_⟩
      · exact ⟨fun _ => ⟨cc, had, by rw [hml, hs]⟩, fun _ => rfl⟩
      · constructor
        · intro hfalse
          exact absurd hfalse (by simp)
        · rintro ⟨cc', h1, h2⟩
          rw [had] at h1
          cases h1
          rw [hml, hs] at h2
          simp at h2
      · intro cc' h1 h2
        rw [had] at h1
        cases h1
        exact ⟨rfl, rfl⟩
      · intro cc' h1 h2
        rw [had] at h1
        cases h1
        rw [hml, hs] at h2
        simp at h2
    · refine ⟨?_, ?_, ?_, ?_⟩
      · constructor
        · intro hfalse
          exact absurd hfalse (by simp)
        · rintro ⟨cc', h1, h2⟩
          rw [had] at h1
          cases h1
          rw [hml, hmst] at h2
          simp at h2
      · exact ⟨fun _ => ⟨cc, had, by rw [hml, hmst]⟩, fun _ => rfl⟩
      · intro cc' h1 h2
        rw [had] at h1
        cases h1
        rw [hml, hmst] at h2
        simp at h2
      · intro cc' h1 h2
        rw [had] at h1
        cases h1
        exact ⟨rfl, rfl⟩

/-- C1 witness: a register file whose single connection block has
`mode=slave` yields exactly the client connection, and one with
`mode=master` yields exactly the host connection. -/
theorem c1_connection_role_mapping_witness :
    (ConnSettings.mk
      (some [("type", JValue.str "tcp"), ("unit", JValue.int 502),
             ("address", JValue.str "192.168.0.10"),
             ("mode", JValue.str "slave")]) none 502 0).client
      = some [("type", JValue.str "tcp"), ("unit", JValue.int 502),
              ("address", JValue.str "192.168.0.10"),
              ("mode", JValue.str "slave")] ∧
    (ConnSettings.mk
      (some [("type", JValue.str "tcp"), ("unit", JValue.int 502),
             ("address", JValue.str "192.168.0.10"),
             ("mode", JValue.str "slave")]) none 502 0).host = none ∧
    (ConnSettings.mk none
      (some [("type", JValue.str "tcp"), ("unit", JValue.int 503),
             ("address", JValue.str "192.168.0.11"),
             ("mode", JValue.str "master")]) 0 503).host
      = some [("type", JValue.str "tcp"), ("unit", JValue.int 503),
              ("address", JValue.str "192.168.0.11"),
              ("mode", JValue.str "master")] := by
  have hs := c1_connection_role_mapping
    [("CONNECTION", JValue.obj
       [("type", JValue.str "tcp"), ("unit", JValue.int 502),
        ("address", JValue.str "192.168.0.10"),
        ("mode", JValue.str "slave")])]
    (ConnSettings.mk
      (some [("type", JValue.str "tcp"), ("unit", JValue.int 502),
             ("address", JValue.str "192.168.0.10"),
             ("mode", JValue.str "slave")]) none 502 0) rfl
  have hm := c1_connection_role_mapping
    [("CONNECTION", JValue.obj
       [("type", JValue.str "tcp"), ("unit", JValue.int 503),
        ("address", JValue.str "192.168.0.11"),
        ("mode", JValue.str "master")])]
    (ConnSettings.mk none
      (some [("type", JValue.str "tcp"), ("unit", JValue.int 503),
             ("address", JValue.str "192.168.0.11"),
             ("mode", JValue.str "master")]) 0 503) rfl
  have hsc := hs.2.2.1
    [("type", JValue.str "tcp"), ("unit", JValue.int 502),
     ("address", JValue.str "192.168.0.10"), ("mode", JValue.str "slave")]
    rfl rfl
  have hmc := hm.2.2.2
    [("type", JValue.str "tcp"), ("unit", JValue.int 503),
     ("address", JValue.str "192.168.0.11"), ("mode", JValue.str "master")]
    rfl rfl
  exact ⟨hsc.1, hsc.2, hmc.1⟩

/-- C5: with an adopted connection block (all required keys present),
extraction raises the bridge's config error when `type=rtu` without a
`baudrate` key, when the type is neither `rtu` nor `tcp`, when the unit is
not an integer, and when the mode is neither `master` nor `slave`; a block
missing required keys is skipped with a warning and nothing is raised. -/
theorem c5_connection_config_errors :
    (∀ regs cc t, adoptedBlock regs = some cc →
       alookup cc "type" = some (JValue.str t) → pyLower t = "rtu" →
       hasKey cc "baudrate" = false →
       isConfigError (loadConnectionSettings regs) = true) ∧
    (∀ regs cc t, adoptedBlock regs = some cc →
       alookup cc "type" = some (JValue.str t) → pyLower t ≠ "rtu" →
       pyLower t ≠ "tcp" →
       isConfigError (loadConnectionSettings regs) = true) ∧
    (∀ regs cc t u, adoptedBlock regs = some cc →
       alookup cc "type" = some (JValue.str t) →
       connectionTypeCheck cc (pyLower t) = .ok () →
       alookup cc "unit" = some u → isInstInt u = false →
       isConfigError (loadConnectionSettings regs) = true) ∧
    (∀ regs cc t u m, adoptedBlock regs = some cc →
       alookup cc "type" = some (JValue.str t) →
       connectionTypeCheck cc (pyLower t) = .ok () →
       alookup cc "unit" = some u → isInstInt u = true →
       alookup cc "mode" = some (JValue.str m) → pyLower m ≠ "slave" →
       pyLower m ≠ "master" →
       isConfigError (loadConnectionSettings regs) = true) ∧
    (∀ regs cc, truthy (.obj regs) = true →
       alookup regs "CONNECTION" = some (.obj cc) →
       truthy (.obj cc) = true →
       requiredKeys.all (fun k => hasKey cc (pyLower k)) = false →
       loadConnectionSettings regs = .ok initSettings) := by
  refine ⟨?_, ?_, ?_, ?_, ?_⟩
  · intro regs cc t had htype hrtu hbaud
    obtain ⟨h1, h2, h3, h4⟩ := adoptedBlock_inv regs cc had
    simp [loadConnectionSettings, connectionTypeCheck, isConfigError,
      h1, h2, h3, h4, htype, hrtu, hbaud]
  · intro regs cc t had htype hrtu htcp
    obtain ⟨h1, h2, h3, h4⟩ := adoptedBlock_inv regs cc had
    simp [loadConnectionSettings, connectionTypeCheck, isConfigError,
      h1, h2, h3, h4, htype, hrtu, htcp]
  · intro regs cc t u had htype hTC hu hint
    obtain ⟨h1, h2, h3, h4⟩ := adoptedBlock_inv regs cc had
    simp [loadConnectionSettings, isConfigError,
      h1, h2, h3, h4, htype, hTC, hu, hint]
  · intro regs cc t u m had htype hTC hu hint hmode hslave hmaster
    obtain ⟨h1, h2, h3, h4⟩ := adoptedBlock_inv regs cc had
    simp [loadConnectionSettings, isConfigError,
      h1, h2, h3, h4, htype, hTC, hu, hint, hmode, hslave, hmaster]
  · intro regs cc h1 h2 h3 hall
    simp [loadConnectionSettings, h1, h2, h3, hall]

/-- C5 witness: the four raising configurations (rtu without baudrate,
unknown type, non-integer unit, unknown mode) each produce a config
error, and a block missing required keys is skipped without raising. -/
theorem c5_connection_config_errors_witness :
    isConfigError (loadConnectionSettings
      [("CONNECTION", JValue.obj
        [("type", JValue.str "rtu"), ("unit", JValue.int 10),
         ("address", JValue.str "/dev/tty"), ("mode", JValue.str "slave")])])
      = true ∧
    isConfigError (loadConnectionSettings
      [("CONNECTION", JValue.obj
        [("type", JValue.str "xyz"), ("unit", JValue.int 10),
         ("address", JValue.str "a"), ("mode", JValue.str "slave")])])
      = true ∧
    isConfigError (loadConnectionSettings
      [("CONNECTION", JValue.obj
        [("type", JValue.str "tcp"), ("unit", JValue.str "ten"),
         ("address", JValue.str "a"), ("mode", JValue.str "slave")])])
      = true ∧
    isConfigError (loadConnectionSettings
      [("CONNECTION", JValue.obj
        [("type", JValue.str "tcp"), ("unit", JValue.int 10),
         ("address", JValue.str "a"), ("mode", JValue.str "weird")])])
      = true ∧
    loadConnectionSettings
      [("CONNECTION", JValue.obj
        [("type", JValue.str "tcp"), ("unit", JValue.int 10)])]
      = .ok initSettings := by
  have h := c5_connection_config_errors
  refine ⟨?_, ?_, ?_, ?_, ?_⟩
  · exact h.1
      [("CONNECTION", JValue.obj
        [("type", JValue.str "rtu"), ("unit", JValue.int 10),
         ("address", JValue.str "/dev/tty"), ("mode", JValue.str "slave")])]
      [("type", JValue.str "rtu"), ("unit", JValue.int 10),
       ("address", JValue.str "/dev/tty"), ("mode", JValue.str "slave")]
      "rtu" rfl rfl rfl rfl
  · exact h.2.1
      [("CONNECTION", JValue.obj
        [("type", JValue.str "xyz"), ("unit", JValue.int 10),
         ("address", JValue.str "a"), ("mode", JValue.str "slave")])]
      [("type", JValue.str "xyz"), ("unit", JValue.int 10),
       ("address", JValue.str "a"), ("mode", JValue.str "slave")]
      "xyz" rfl rfl (by decide) (by decide)
  · exact h.2.2.1
      [("CONNECTION", JValue.obj
        [("type", JValue.str "tcp"), ("unit", JValue.str "ten"),
         ("address", JValue.str "a"), ("mode", JValue.str "slave")])]
      [("type", JValue.str "tcp"), ("unit", JValue.str "ten"),
       ("address", JValue.str "a"), ("mode", JValue.str "slave")]
      "tcp" (JValue.str "ten") rfl rfl rfl rfl rfl
  · exact h.2.2.2.1
      [("CONNECTION", JValue.obj
        [("type", JValue.str "tcp"), ("unit", JValue.int 10),
         ("address", JValue.str "a"), ("mode", JValue.str "weird")])]
      [("type", JValue.str "tcp"), ("unit", JValue.int 10),
       ("address", JValue.str "a"), ("mode", JValue.str "weird")]
      "tcp" (JValue.int 10) "weird" rfl rfl rfl rfl rfl rfl
      (by decide) (by decide)
  · exact h.2.2.2.2
      [("CONNECTION", JValue.obj
        [("type", JValue.str "tcp"), ("unit", JValue.int 10)])]
      [("type", JValue.str "tcp"), ("unit", JValue.int 10)]
      rfl rfl rfl rfl

end ModbusBridge
